import Mathlib

/-!
Verification of the jupiter-portofolio-scraper persistence and extraction
pipeline.  The Python sources are shallowly embedded as Lean definitions:

* Python `float` values are modelled as rationals (`Rat`); the claims under
  study are about record structure and control flow, not float rounding.
* Python strings are modelled as `String` (for identifiers, keys and
  measurement names) or as `List Char` (for the raw textual payload, where
  Python's character-indexed slicing and UTF-8 byte counts must be told
  apart).
* `datetime.now(timezone.utc)` is modelled by a clock `Nat → Nat`: the n-th
  call of `now()` during one write call returns `clock n` (a nanosecond
  reading); successive readings of a real nanosecond clock are distinct.
* The InfluxDB client is modelled by `WriteApi`: `writeOk p` tells whether
  writing point `p` succeeds or raises, `flushOk` whether `flush()` succeeds.
* A Python function that may raise an uncaught exception is embedded with
  result type `Except PyExc _`; `try/except Exception` blocks are translated
  to explicit matches, so an `.error` result means the exception escapes the
  function (fatal to the caller unless it catches it).
-/

namespace PortfolioScraper

/-- A generic Python exception (`Exception`) or a `ValueError`. -/
inductive PyExc where
  | exc
  | valueError

/-- Value of one InfluxDB point field: a float (modelled as `Rat`) or a
string (modelled as `List Char`). -/
inductive FVal where
  | num (q : Rat)
  | str (s : List Char)

/-- One InfluxDB point as assembled by `influx_service.py`: measurement
name, tag set, field set and the nanosecond timestamp passed to `.time`. -/
structure WPoint where
  measurement : String
  tags : List (String × String)
  fields : List (String × FVal)
  time : Nat

/-- Look up a field value of a point by field key. -/
def fieldVal (p : WPoint) (k : String) : Option FVal :=
  (p.fields.find? (fun f => f.1 == k)).map (fun f => f.2)

/-- Asset model (src/services/influx_service.py lines 19-23). -/
structure Asset where
  asset : String
  value : Rat
  percentage : Rat

/-- Platform model (src/services/influx_service.py lines 26-30). -/
structure Platform where
  platform : String
  value : Rat
  percentage : Rat

/-- NetWorth model (src/services/influx_service.py lines 33-36). -/
structure NetWorth where
  net_worth : Rat
  sol_equivalent : Rat

/-- Wealth aggregate (src/services/influx_service.py lines 39-43). -/
structure Wealth where
  top_5_holdings : List Asset
  net_worth : NetWorth
  top_5_platforms : List Platform

/-- The net-worth point built at influx_service.py lines 91-96. -/
def netPoint (t : Nat) (nw : NetWorth) : WPoint :=
  ⟨"portfolio", [],
    [("net_worth", FVal.num nw.net_worth), ("sol_equivalent", FVal.num nw.sol_equivalent)], t⟩

/-- The holding point built at influx_service.py lines 101-108. -/
def holdingPoint (t : Nat) (h : Asset) : WPoint :=
  ⟨"portfolio_holding", [("asset", h.asset)],
    [("percentage", FVal.num h.percentage), ("value", FVal.num h.value)], t⟩

/-- The platform point built at influx_service.py lines 113-120. -/
def platformPoint (t : Nat) (pl : Platform) : WPoint :=
  ⟨"portfolio_platform", [("platform", pl.platform)],
    [("percentage", FVal.num pl.percentage), ("value", FVal.num pl.value)], t⟩

/-- Points built by the holdings loop (influx_service.py lines 101-110);
`k` is the index of the next `datetime.now()` reading. -/
def holdingPoints (clock : Nat → Nat) (k : Nat) : List Asset → List WPoint
  | [] => []
  | h :: hs => holdingPoint (clock k) h :: holdingPoints clock (k + 1) hs

/-- Points built by the platforms loop (influx_service.py lines 113-122);
`k` is the index of the next `datetime.now()` reading. -/
def platformPoints (clock : Nat → Nat) (k : Nat) : List Platform → List WPoint
  | [] => []
  | pl :: pls => platformPoint (clock k) pl :: platformPoints clock (k + 1) pls

/-- The sequence of points built by `write_structured_portfolio_data`, in
write order.  Each point receives its own `datetime.now()` reading: the
net-worth point uses reading 0, the i-th holding reading `1 + i`, the j-th
platform reading `1 + len(holdings) + j` (influx_service.py lines 89-122). -/
def structuredPoints (clock : Nat → Nat) (w : Wealth) : List WPoint :=
  netPoint (clock 0) w.net_worth
    :: (holdingPoints clock 1 w.top_5_holdings
        ++ platformPoints clock (1 + w.top_5_holdings.length) w.top_5_platforms)

/-- Model of the InfluxDB write handle: whether writing a given point
succeeds (or raises), and whether `flush()` succeeds (or raises). -/
structure WriteApi where
  writeOk : WPoint → Bool
  flushOk : Bool

/-- Sequentially attempt to write the given points; the first raising write
aborts the loop (the exception propagates to the enclosing handler).
Returns whether all writes succeeded together with the list of points
actually attempted, in order. -/
def writePointsSeq (api : WriteApi) : List WPoint → Bool × List WPoint
  | [] => (true, [])
  | p :: ps =>
    if api.writeOk p then
      let r := writePointsSeq api ps
      (r.1, p :: r.2)
    else (false, [p])

/-- InfluxService.write_structured_portfolio_data (influx_service.py lines
73-128).  The guard `not all([write_api, bucket, data])` treats a `None`
api, an empty bucket string and a `None` data object as falsy.  The body is
wrapped in `try/except Exception`, so a raising record write or flush is
caught and reported as `False`; the function itself never raises, hence the
result is always `Except.ok`.  Besides the boolean the embedding also
returns the trace of points whose write was attempted. -/
def write_structured_portfolio_data (api? : Option WriteApi) (bucket : String)
    (clock : Nat → Nat) (data? : Option Wealth) : Except PyExc (Bool × List WPoint) :=
  match api?, data? with
  | some api, some w =>
    if bucket = "" then Except.ok (false, [])
    else
      let r := writePointsSeq api (structuredPoints clock w)
      Except.ok (r.1 && api.flushOk, r.2)
  | _, _ => Except.ok (false, [])

/-- Python `if tags:` — `None` and the empty dict are falsy; in both cases
no tag is added, so both are modelled by the empty tag list. -/
def tagsOf : Option (List (String × String)) → List (String × String)
  | none => []
  | some ts => ts

/-- The single point built by `write_raw_portfolio_data` (influx_service.py
lines 147-162).  `data[:65000]` is Python character slicing: the first
65000 code points, not bytes. -/
def rawPoint (t : Nat) (s : List Char) (ts : List (String × String)) : WPoint :=
  ⟨"portfolio_raw", ts, [("raw_data", FVal.str (s.take 65000))], t⟩

/-- InfluxService.write_raw_portfolio_data (influx_service.py lines
130-170).  The guard `not all([write_api, bucket, data])` treats an empty
string payload as falsy (no record written, returns `False`); otherwise the
single truncated point is written and flushed under `try/except`. -/
def write_raw_portfolio_data (api? : Option WriteApi) (bucket : String) (clock : Nat → Nat)
    (s : List Char) (tags? : Option (List (String × String))) :
    Except PyExc (Bool × List WPoint) :=
  match api? with
  | some api =>
    if bucket = "" ∨ s = [] then Except.ok (false, [])
    else
      let p := rawPoint (clock 0) s (tagsOf tags?)
      if api.writeOk p then Except.ok (api.flushOk, [p]) else Except.ok (false, [p])
  | none => Except.ok (false, [])

/-- The payload argument of `write_portfolio_data`: a `Wealth` instance, a
raw string, or any other (unsupported) Python value. -/
inductive Payload where
  | wealth (w : Wealth)
  | raw (s : List Char)
  | other

/-- InfluxService.write_portfolio_data (influx_service.py lines 172-192):
dispatch on the runtime type of the payload.  The structured branch does
not forward the `tags` argument; an unsupported payload type is reported as
`False`. -/
def write_portfolio_data (api? : Option WriteApi) (bucket : String) (clock : Nat → Nat)
    (data : Payload) (tags? : Option (List (String × String))) :
    Except PyExc (Bool × List WPoint) :=
  match data with
  | .wealth w => write_structured_portfolio_data api? bucket clock (some w)
  | .raw s => write_raw_portfolio_data api? bucket clock s tags?
  | .other => Except.ok (false, [])

/-- Boolean test that an `Except` computation finished without an uncaught
exception. -/
def isOkE : Except PyExc (Bool × List WPoint) → Bool
  | .ok _ => true
  | .error _ => false

/-- A write handle on which every point write and the flush succeed. -/
def allOkApi : WriteApi := ⟨fun _ => true, true⟩

/-- Spec-side decomposition relation, written after the words of the spec
(§4.4 and §8): the record list consists of exactly one net-worth record
carrying the two numeric fields, then one record per holding tagged by its
asset identifier with value and percentage fields, then one record per
platform tagged by its platform identifier with value and percentage
fields, `1 + len(top_5_holdings) + len(top_5_platforms)` records in all,
with no tag or field value diverging from the `Wealth` value. -/
def decomposesPerSpec (pts : List WPoint) (w : Wealth) : Prop :=
  pts.length = 1 + w.top_5_holdings.length + w.top_5_platforms.length ∧
  ∃ net hps pps, pts = net :: (hps ++ pps) ∧
    net.measurement = "portfolio" ∧ net.tags = [] ∧
    fieldVal net "net_worth" = some (FVal.num w.net_worth.net_worth) ∧
    fieldVal net "sol_equivalent" = some (FVal.num w.net_worth.sol_equivalent) ∧
    List.Forall₂ (fun p h => p.measurement = "portfolio_holding" ∧
      p.tags = [("asset", h.asset)] ∧
      fieldVal p "value" = some (FVal.num h.value) ∧
      fieldVal p "percentage" = some (FVal.num h.percentage)) hps w.top_5_holdings ∧
    List.Forall₂ (fun p pl => p.measurement = "portfolio_platform" ∧
      p.tags = [("platform", pl.platform)] ∧
      fieldVal p "value" = some (FVal.num pl.value) ∧
      fieldVal p "percentage" = some (FVal.num pl.percentage)) pps w.top_5_platforms

lemma length_holdingPoints (clock : Nat → Nat) (l : List Asset) :
    ∀ k, (holdingPoints clock k l).length = l.length := by
  induction l with
  | nil => intro k; rfl
  | cons h hs ih => intro k; simp [holdingPoints, ih]

lemma length_platformPoints (clock : Nat → Nat) (l : List Platform) :
    ∀ k, (platformPoints clock k l).length = l.length := by
  induction l with
  | nil => intro k; rfl
  | cons p ps ih => intro k; simp [platformPoints, ih]

lemma forall₂_holdingPoints (clock : Nat → Nat) (R : WPoint → Asset → Prop)
    (l : List Asset) (hR : ∀ t h, R (holdingPoint t h) h) :
    ∀ k, List.Forall₂ R (holdingPoints clock k l) l := by
  induction l with
  | nil => intro k; exact List.Forall₂.nil
  | cons h hs ih => intro k; exact List.Forall₂.cons (hR (clock k) h) (ih (k + 1))

lemma forall₂_platformPoints (clock : Nat → Nat) (R : WPoint → Platform → Prop)
    (l : List Platform) (hR : ∀ t p, R (platformPoint t p) p) :
    ∀ k, List.Forall₂ R (platformPoints clock k l) l := by
  induction l with
  | nil => intro k; exact List.Forall₂.nil
  | cons p ps ih => intro k; exact List.Forall₂.cons (hR (clock k) p) (ih (k + 1))

lemma writePointsSeq_allOk (pts : List WPoint) :
    writePointsSeq allOkApi pts = (true, pts) := by
  induction pts with
  | nil => rfl
  | cons p ps ih =>
    simp only [writePointsSeq]
    rw [show allOkApi.writeOk p = true from rfl]
    simp [ih]

/-- C1: a structured write of a Wealth value W decomposes it into exactly
`1 + len(top_5_holdings) + len(top_5_platforms)` records — one `portfolio`
record with numeric fields net_worth and sol_equivalent, one
`portfolio_holding` record per holding tagged by its asset identifier with
value and percentage fields, one `portfolio_platform` record per platform
tagged by its platform identifier with value and percentage fields — with
no tag or field value diverging from W; and on a healthy write handle with
a non-empty bucket the write call attempts exactly these records and
reports success. -/
theorem structured_write_decomposes (clock : Nat → Nat) (w : Wealth) :
    decomposesPerSpec (structuredPoints clock w) w ∧
    write_structured_portfolio_data (some allOkApi) "portfolio-bucket" clock (some w) =
      Except.ok (true, structuredPoints clock w) := by
  constructor
  · constructor
    · simp [structuredPoints, length_holdingPoints, length_platformPoints]
      omega
    · refine ⟨netPoint (clock 0) w.net_worth,
        holdingPoints clock 1 w.top_5_holdings,
        platformPoints clock (1 + w.top_5_holdings.length) w.top_5_platforms,
        rfl, rfl, rfl, rfl, rfl, ?_, ?_⟩
      · exact forall₂_holdingPoints clock _ _ (fun t h => ⟨rfl, rfl, rfl, rfl⟩) 1
      · exact forall₂_platformPoints clock _ _ (fun t p => ⟨rfl, rfl, rfl, rfl⟩) _
  · rw [write_structured_portfolio_data]
    rw [if_neg (by decide)]
    rw [writePointsSeq_allOk]
    rfl

/-- Sample Wealth value: one holding and one platform (cf. spec §8,
end-to-end scenario 1). -/
def w0 : Wealth := ⟨[⟨"USDC", 120, 40⟩], ⟨301, 2⟩, [⟨"Kamino", 200, 66⟩]⟩

/-- Whether all points of a list carry one identical timestamp. -/
def sharedTimestampB : List WPoint → Bool
  | [] => true
  | p :: ps => ps.all (fun q => q.time == p.time)

/-- C6 counterexample: the code takes a fresh `datetime.now()` reading for
every record (influx_service.py lines 95, 107, 119), so with a clock whose
successive nanosecond readings advance (here reading n returns n), the
records of one structured write call do NOT carry an identical timestamp:
the claim fails at the concrete input `w0`. -/
theorem shared_timestamp_counterexample :
    sharedTimestampB (structuredPoints (fun i => i) w0) = false := by decide

lemma times_holdingPoints (clock : Nat → Nat) (l : List Asset) :
    ∀ k, (holdingPoints clock k l).map WPoint.time = (List.range' k l.length).map clock := by
  induction l with
  | nil => intro k; rfl
  | cons h hs ih =>
    intro k
    simp [holdingPoints, List.length_cons, List.range'_succ, holdingPoint, ih]

lemma times_platformPoints (clock : Nat → Nat) (l : List Platform) :
    ∀ k, (platformPoints clock k l).map WPoint.time = (List.range' k l.length).map clock := by
  induction l with
  | nil => intro k; rfl
  | cons p ps ih =>
    intro k
    simp [platformPoints, List.length_cons, List.range'_succ, platformPoint, ih]

/-- C6 amended: every record written by one structured write call takes its
timestamp from the wall clock at write time — the k-th record carries the
k-th `datetime.now()` reading of the call (nanosecond precision) — and
never from page content (the timestamps depend only on the clock, not on
the Wealth value); the records share one timestamp only when those
successive clock readings coincide. -/
theorem per_record_timestamps (clock : Nat → Nat) (w : Wealth) :
    (structuredPoints clock w).map WPoint.time =
      (List.range' 0 (1 + w.top_5_holdings.length + w.top_5_platforms.length)).map clock := by
  simp only [structuredPoints, List.map_cons, List.map_append,
    times_holdingPoints, times_platformPoints]
  rw [← List.map_append]
  have h := List.range'_append 1 w.top_5_holdings.length w.top_5_platforms.length 1
  rw [one_mul] at h
  rw [h]
  rw [show 1 + w.top_5_holdings.length + w.top_5_platforms.length
        = (w.top_5_platforms.length + w.top_5_holdings.length) + 1 from by omega]
  rw [List.range'_succ]
  rfl

/-- A write handle that raises exactly on holding records. -/
def holdingFailApi : WriteApi := ⟨fun p => !(p.measurement == "portfolio_holding"), true⟩

/-- C7 counterexample: within one structured write call of `w0` (which has
one holding and one platform), a raising write on the holding record jumps
to the enclosing `except` handler (influx_service.py lines 126-128),
so the platform record of the same call is never attempted: the attempted
trace is exactly the net-worth record and the failed holding record, and
it contains no `portfolio_platform` record, refuting the claim that a
holding-record failure does not prevent the platform writes. -/
theorem holding_failure_blocks_platforms :
    write_structured_portfolio_data (some holdingFailApi) "b" (fun i => i) (some w0) =
      Except.ok (false, [netPoint 0 w0.net_worth, holdingPoint 1 ⟨"USDC", 120, 40⟩]) ∧
    ([netPoint 0 w0.net_worth, holdingPoint 1 ⟨"USDC", 120, 40⟩].all
      (fun p => !(p.measurement == "portfolio_platform"))) = true ∧
    w0.top_5_platforms.length = 1 := by
  exact ⟨rfl, rfl, rfl⟩

lemma writePointsSeq_eq (api : WriteApi) : ∀ pts : List WPoint,
    writePointsSeq api pts =
      (pts.all api.writeOk,
        pts.take (pts.findIdx (fun p => !api.writeOk p) + 1)) := by
  intro pts
  induction pts with
  | nil => rfl
  | cons p ps ih =>
    by_cases h : api.writeOk p = true
    · simp [writePointsSeq, h, List.findIdx_cons, ih, List.take_succ_cons]
    · simp [writePointsSeq, h, List.findIdx_cons, Bool.eq_false_iff.mpr h]

/-- C7 amended: within one structured write call, a failure while writing
one record aborts all remaining record writes of that call (abort on first
failure): the attempted records are exactly the prefix of the decomposition
up to and including the first record whose write raises, the call reports
True only if every record write and the flush succeed, and in particular a
failing holding record prevents every later holding and platform record of
the call from being attempted. -/
theorem abort_on_first_failure (api : WriteApi) (bucket : String) (clock : Nat → Nat)
    (w : Wealth) (hb : ¬ bucket = "") :
    write_structured_portfolio_data (some api) bucket clock (some w) =
      Except.ok ((structuredPoints clock w).all api.writeOk && api.flushOk,
        (structuredPoints clock w).take
          ((structuredPoints clock w).findIdx (fun p => !api.writeOk p) + 1)) := by
  rw [write_structured_portfolio_data, if_neg hb, writePointsSeq_eq]

/-- Witness for `abort_on_first_failure` at the concrete input
`holdingFailApi`, bucket "b", identity clock and `w0`. -/
theorem abort_on_first_failure_witness :
    write_structured_portfolio_data (some holdingFailApi) "b" (fun i => i) (some w0) =
      Except.ok ((structuredPoints (fun i => i) w0).all holdingFailApi.writeOk &&
          holdingFailApi.flushOk,
        (structuredPoints (fun i => i) w0).take
          ((structuredPoints (fun i => i) w0).findIdx
            (fun p => !holdingFailApi.writeOk p) + 1)) :=
  abort_on_first_failure holdingFailApi "b" (fun i => i) w0 (by decide)

/-- UTF-8 encoding of one Unicode code point, as the list of its byte
values (1 to 4 bytes). -/
def charUtf8Bytes (c : Char) : List Nat :=
  let n := c.toNat
  if n < 128 then [n]
  else if n < 2048 then [192 + n / 64, 128 + n % 64]
  else if n < 65536 then [224 + n / 4096, 128 + (n / 64) % 64, 128 + n % 64]
  else [240 + n / 262144, 128 + (n / 4096) % 64, 128 + (n / 64) % 64, 128 + n % 64]

/-- UTF-8 byte sequence of a Python string (a sequence of code points). -/
def strUtf8Bytes (s : List Char) : List Nat := (s.map charUtf8Bytes).flatten

/-- A payload of 40000 copies of U+00E9, a 2-byte code point: 40000
characters, 80000 UTF-8 bytes. -/
def c3s : List Char := List.replicate 40000 (Char.ofNat 233)

lemma c3s_bytes_length : (strUtf8Bytes c3s).length = 80000 := by
  have h : charUtf8Bytes (Char.ofNat 233) = [195, 169] := by decide
  unfold strUtf8Bytes c3s
  rw [List.map_replicate, h, List.length_flatten, List.map_replicate,
    List.sum_replicate, smul_eq_mul]
  norm_num

lemma c3s_take : c3s.take 65000 = c3s := by
  unfold c3s
  rw [List.take_replicate]
  norm_num

/-- C3 counterexample: `data[:65000]` (influx_service.py line 159) slices
the first 65000 characters, not bytes.  For the 80000-byte payload `c3s`
(40000 two-byte characters) the raw write stores one record whose raw_data
field is the whole payload `c3s` — yet `c3s` is longer than 65000 bytes and
differs from its first 65000 bytes, refuting the claim that the stored
field equals the first 65,000 bytes of the payload. -/
theorem raw_truncation_bytes_counterexample :
    write_raw_portfolio_data (some allOkApi) "b" (fun i => i) c3s none =
      Except.ok (true, [rawPoint 0 c3s []]) ∧
    fieldVal (rawPoint 0 c3s []) "raw_data" = some (FVal.str c3s) ∧
    65000 < (strUtf8Bytes c3s).length ∧
    strUtf8Bytes c3s ≠ (strUtf8Bytes c3s).take 65000 := by
  refine ⟨rfl, ?_, ?_, ?_⟩
  · simp [fieldVal, rawPoint, c3s_take]
  · rw [c3s_bytes_length]; omega
  · intro h
    have hl := congrArg List.length h
    rw [List.length_take, c3s_bytes_length] at hl
    omega

/-- C3 amended: for every non-empty string payload s (and present write
handle and non-empty bucket), the raw write stores exactly one record whose
single raw_data field equals the first 65,000 characters (code points) of
s — the whole of s when s has at most 65,000 characters; the truncation
limit counts characters, not bytes, so multi-byte text may store more than
65,000 bytes.  An empty payload is rejected by the falsiness guard: the
call reports failure and stores no record. -/
theorem raw_truncation_chars (api : WriteApi) (bucket : String) (clock : Nat → Nat)
    (s : List Char) (tags? : Option (List (String × String)))
    (hb : ¬ bucket = "") (hs : ¬ s = []) :
    write_raw_portfolio_data (some api) bucket clock s tags? =
      Except.ok (api.writeOk (rawPoint (clock 0) s (tagsOf tags?)) && api.flushOk,
        [rawPoint (clock 0) s (tagsOf tags?)]) ∧
    fieldVal (rawPoint (clock 0) s (tagsOf tags?)) "raw_data" =
      some (FVal.str (s.take 65000)) ∧
    (s.length ≤ 65000 → s.take 65000 = s) ∧
    write_raw_portfolio_data (some api) bucket clock [] tags? = Except.ok (false, []) := by
  refine ⟨?_, rfl, ?_, ?_⟩
  · rw [write_raw_portfolio_data, if_neg (by simp [hb, hs])]
    cases h : api.writeOk (rawPoint (clock 0) s (tagsOf tags?)) <;> simp [h]
  · intro hle
    exact List.take_of_length_le hle
  · rw [write_raw_portfolio_data, if_pos (by simp)]

/-- Witness for `raw_truncation_chars` at the concrete one-character
payload. -/
theorem raw_truncation_chars_witness :
    write_raw_portfolio_data (some allOkApi) "b" (fun i => i) [Char.ofNat 97] none =
      Except.ok (allOkApi.writeOk (rawPoint 0 [Char.ofNat 97] (tagsOf none)) &&
          allOkApi.flushOk,
        [rawPoint 0 [Char.ofNat 97] (tagsOf none)]) ∧
    fieldVal (rawPoint 0 [Char.ofNat 97] (tagsOf none)) "raw_data" =
      some (FVal.str ([Char.ofNat 97].take 65000)) ∧
    ([Char.ofNat 97].length ≤ 65000 → [Char.ofNat 97].take 65000 = [Char.ofNat 97]) ∧
    write_raw_portfolio_data (some allOkApi) "b" (fun i => i) [] none =
      Except.ok (false, []) :=
  raw_truncation_chars allOkApi "b" (fun i => i) [Char.ofNat 97] none
    (by decide) (by decide)

lemma write_structured_isOk (api? : Option WriteApi) (bucket : String)
    (clock : Nat → Nat) (data? : Option Wealth) :
    isOkE (write_structured_portfolio_data api? bucket clock data?) = true := by
  rcases api? with _ | api
  · rcases data? with _ | w <;> rfl
  · rcases data? with _ | w
    · rfl
    · simp only [write_structured_portfolio_data]
      split <;> rfl

lemma write_raw_isOk (api? : Option WriteApi) (bucket : String) (clock : Nat → Nat)
    (s : List Char) (tags? : Option (List (String × String))) :
    isOkE (write_raw_portfolio_data api? bucket clock s tags?) = true := by
  rcases api? with _ | api
  · rfl
  · simp only [write_raw_portfolio_data]
    split
    · rfl
    · split <;> rfl

lemma write_all_fail (api : WriteApi) (hf : ∀ p, api.writeOk p = false)
    (bucket : String) (clock : Nat → Nat) (data : Payload)
    (tags? : Option (List (String × String))) :
    ∃ tr, write_portfolio_data (some api) bucket clock data tags? =
      Except.ok (false, tr) := by
  cases data with
  | other => exact ⟨[], rfl⟩
  | wealth w =>
    simp only [write_portfolio_data, write_structured_portfolio_data]
    by_cases h : bucket = ""
    · rw [if_pos h]; exact ⟨[], rfl⟩
    · rw [if_neg h]
      refine ⟨[netPoint (clock 0) w.net_worth], ?_⟩
      simp [structuredPoints, writePointsSeq, hf]
  | raw s =>
    simp only [write_portfolio_data, write_raw_portfolio_data]
    by_cases h : bucket = "" ∨ s = []
    · rw [if_pos h]; exact ⟨[], rfl⟩
    · rw [if_neg h]
      refine ⟨[rawPoint (clock 0) s (tagsOf tags?)], ?_⟩
      simp [hf]

/-- C4: the polymorphic write operation always returns a boolean result and
never propagates an exception (the `Except` layer of the embedding, which
carries any uncaught Python exception, is always `.ok`); an unsupported
payload type is reported as False without writing anything; and on a write
handle whose underlying client raises on every write, the operation reports
False for every payload instead of raising. -/
theorem write_never_throws (api? : Option WriteApi) (bucket : String)
    (clock : Nat → Nat) (data : Payload) (tags? : Option (List (String × String))) :
    isOkE (write_portfolio_data api? bucket clock data tags?) = true ∧
    write_portfolio_data api? bucket clock Payload.other tags? = Except.ok (false, []) ∧
    ∀ api, (∀ p, api.writeOk p = false) →
      ∃ tr, write_portfolio_data (some api) bucket clock data tags? =
        Except.ok (false, tr) := by
  refine ⟨?_, rfl, fun api hf => write_all_fail api hf bucket clock data tags?⟩
  cases data with
  | wealth w => exact write_structured_isOk api? bucket clock (some w)
  | raw s => exact write_raw_isOk api? bucket clock s tags?
  | other => rfl

/-- A write handle whose every point write raises. -/
def failApi : WriteApi := ⟨fun _ => false, true⟩

/-- Witness for `write_never_throws`: at a concrete always-raising handle
and the concrete Wealth value `w0` the write reports False without
raising. -/
theorem write_never_throws_witness :
    ∃ tr, write_portfolio_data (some failApi) "b" (fun i => i) (Payload.wealth w0) none =
      Except.ok (false, tr) :=
  (write_never_throws (some failApi) "b" (fun i => i) (Payload.wealth w0) none).2.2
    failApi (fun _ => rfl)

/-- C10: the records produced by the polymorphic write for a Wealth payload
are independent of the optional tags argument — the dispatch
(influx_service.py lines 186-187) does not forward `tags` to the structured
writer, so writing a Wealth with any tags dictionary produces exactly the
same result and records as writing it with no tags; by contrast the raw
(string) path does apply the tags to its single record. -/
theorem tags_ignored_on_structured (api? : Option WriteApi) (bucket : String)
    (clock : Nat → Nat) (w : Wealth) (tags? : Option (List (String × String))) :
    write_portfolio_data api? bucket clock (Payload.wealth w) tags? =
      write_portfolio_data api? bucket clock (Payload.wealth w) none ∧
    write_portfolio_data (some allOkApi) "b" (fun i => i)
        (Payload.raw [Char.ofNat 97]) (some [("data_type", "raw")]) =
      Except.ok (true, [⟨"portfolio_raw", [("data_type", "raw")],
        [("raw_data", FVal.str ([Char.ofNat 97].take 65000))], 0⟩]) :=
  ⟨rfl, rfl⟩

/-- The four InfluxDB connection settings as read from the environment:
`os.getenv` yields `none` when a variable is unset. -/
structure Env where
  influx_url : Option String
  influx_token : Option String
  influx_org : Option String
  influx_bucket : Option String

/-- Python truthiness of an environment value: `None` and the empty string
are falsy. -/
def truthy : Option String → Bool
  | none => false
  | some s => !(decide (s = ""))

/-- Python `all([url, token, org, bucket])`. -/
def allPresent (env : Env) : Bool :=
  truthy env.influx_url && truthy env.influx_token &&
    truthy env.influx_org && truthy env.influx_bucket

/-- The warning printed by InfluxService.init_client when configuration is
missing (influx_service.py line 63). -/
def influxWarnMsg : String :=
  "Warning: InfluxDB configuration environment variables not fully set."

/-- InfluxService.init_client (influx_service.py lines 49-71).  `connect`
models the `InfluxDBClient(...)` constructor together with
`client.write_api()`: `.ok api` when the connection succeeds, `.error`
when it raises.  If any of the four settings is falsy the function prints
a warning and returns `(None, None, None)` without touching `connect`; a
raising constructor is caught and also yields `(None, None, None)`.  The
second component of the result collects the printed diagnostics. -/
def init_client (connect : Except PyExc WriteApi) (env : Env) :
    (Option Unit × Option WriteApi × Option String) × List String :=
  if allPresent env = true then
    match connect with
    | .ok api => ((some (), some api, env.influx_bucket), [])
    | .error _ => ((none, none, none), ["Error initializing InfluxDB client"])
  else ((none, none, none), [influxWarnMsg])

/-- The persistence block of run_portfolio_scraper (src/main.py lines
88-144, single-payload branch): initialize the client; if client, write
api and bucket are all truthy, delegate to `write_portfolio_data`,
otherwise log a warning and skip storage; the surrounding
`try/except Exception` turns any escaping exception into a logged skip. -/
def run_store_step (connect : Except PyExc WriteApi) (env : Env) (clock : Nat → Nat)
    (payload : Payload) (tags? : Option (List (String × String))) :
    Except PyExc (Bool × List WPoint) :=
  match init_client connect env with
  | ((some _, some api, some bucket), _) =>
    if bucket = "" then Except.ok (false, [])
    else
      match write_portfolio_data (some api) bucket clock payload tags? with
      | .ok r => Except.ok r
      | .error _ => Except.ok (false, [])
  | _ => Except.ok (false, [])

/-- init_influx_client of the legacy entry script (main.py lines 98-107):
missing configuration raises `ValueError` instead of returning `None`s. -/
def main_init_influx_client (connect : Except PyExc WriteApi) (env : Env) :
    Except PyExc (WriteApi × String) :=
  if allPresent env = true then
    connect.map (fun api => (api, env.influx_bucket.getD ""))
  else Except.error PyExc.valueError

/-- write_portfolio_data of the legacy entry script (main.py lines
109-149): `init_influx_client()` is called BEFORE the `try` block, so the
`ValueError` it raises on missing configuration propagates out of the
function to the caller; exceptions inside the write loop are caught by the
`try/except`. -/
def main_write_portfolio_data (connect : Except PyExc WriteApi) (env : Env)
    (clock : Nat → Nat) (w : Wealth) : Except PyExc (Bool × List WPoint) :=
  match main_init_influx_client connect env with
  | .error e => Except.error e
  | .ok (api, bucket) =>
    let r := writePointsSeq api (structuredPoints clock w)
    let _ := bucket
    Except.ok (r.1 && api.flushOk, r.2)

/-- An environment with the token variable unset and the rest set. -/
def envNoToken : Env := ⟨some "http://influx", none, some "org", some "bucket"⟩

/-- C5 counterexample: in the legacy entry script main.py — one of the two
code paths the claim is about — a missing `INFLUX_TOKEN` makes
`init_influx_client` raise a `ValueError` that `write_portfolio_data` does
not catch (the call sits before its `try` block), so persistence absence
aborts the run with an uncaught exception: it is neither "skipped with a
warning" nor "not fatal to the run", even when the store is reachable
(healthy `connect`) and the write handle is healthy, refuting the claim at
this concrete input. -/
theorem missing_config_fatal_in_legacy_main :
    main_write_portfolio_data (Except.ok allOkApi) envNoToken (fun i => i) w0 =
      Except.error PyExc.valueError ∧
    isOkE (main_write_portfolio_data (Except.ok allOkApi) envNoToken (fun i => i) w0) =
      false :=
  ⟨rfl, rfl⟩

/-- C5 amended: in the service pipeline (InfluxService.init_client and the
run orchestrator of src/main.py), if any one of the four store settings
{URL, token, org, bucket} is absent or empty, init_client returns
(None, None, None) with a warning — for every possible connection
behaviour, i.e. without attempting a connection — and the orchestrator's
store step skips persistence entirely: failure is reported, no record is
written, and no exception escapes (not fatal there).  The legacy entry
script main.py diverges: its init_influx_client raises an uncaught
ValueError instead, so on that path the absence aborts the run. -/
theorem missing_config_skips_persistence (connect : Except PyExc WriteApi) (env : Env)
    (clock : Nat → Nat) (payload : Payload) (tags? : Option (List (String × String)))
    (h : allPresent env = false) :
    init_client connect env = ((none, none, none), [influxWarnMsg]) ∧
    run_store_step connect env clock payload tags? = Except.ok (false, []) := by
  have h1 : init_client connect env = ((none, none, none), [influxWarnMsg]) := by
    unfold init_client
    rw [if_neg (by rw [h]; exact Bool.false_ne_true)]
  refine ⟨h1, ?_⟩
  unfold run_store_step
  rw [h1]

/-- Witness for `missing_config_skips_persistence` at the concrete
environment missing its token, an unreachable store (raising connect) and
the concrete Wealth payload `w0`. -/
theorem missing_config_skips_persistence_witness :
    init_client (Except.error PyExc.exc) envNoToken =
      ((none, none, none), [influxWarnMsg]) ∧
    run_store_step (Except.error PyExc.exc) envNoToken (fun i => i)
      (Payload.wealth w0) none = Except.ok (false, []) :=
  missing_config_skips_persistence (Except.error PyExc.exc) envNoToken (fun i => i)
    (Payload.wealth w0) none (by decide)

/-- Result of the liveness probe `requests.get(CHROME_DEBUG_URL +
"/json/version")`: an HTTP response with its status code and the optional
Browser field of the JSON body, or a connection error. -/
inductive ProbeResult where
  | status (code : Nat) (browserName : Option String)
  | connError

/-- Modelled from the spec: the remote-debug attach URL constant of
src/config/constants.py (a file absent from the sources); spec §6 fixes
the default to this value. -/
def CHROME_DEBUG_URL : String := "http://localhost:9222"

/-- Guidance printed on a failed probe (browser_service.py lines 31, 40). -/
def debugGuidanceMsg : String :=
  "Please run './launch_chrome_debug.sh' in a separate terminal first."

/-- BrowserService.check_debug_chrome_connection (browser_service.py lines
19-41): any status other than 200, or a connection error, yields False
plus guidance to start the external Chrome first; a 200 response yields
True. -/
def check_debug_chrome_connection (probe : ProbeResult) : Bool × List String :=
  match probe with
  | .status code _ =>
    if code ≠ 200 then
      (false, ["Error: Chrome debug port returned status code", debugGuidanceMsg])
    else (true, ["Successfully connected to Chrome debug instance", "Chrome version"])
  | .connError =>
    (false, ["Error: Could not connect to Chrome debug port", debugGuidanceMsg])

/-- The browser handle returned by browser_use: `cdp_url` set means the
session attaches to the already-running browser over CDP rather than
launching a new process. -/
structure BrowserHandle where
  cdp_url : Option String
  headless : Bool

/-- BrowserService.create_browser (browser_service.py lines 43-64): a
failed probe calls `sys.exit(1)` (modelled as `Except.error 1`, a
`SystemExit` with code 1, which `except Exception` handlers do not catch);
otherwise the browser config attaches to the debug instance via
`cdp_url=CHROME_DEBUG_URL`. -/
def create_browser (probe : ProbeResult) (headless : Bool) : Except Nat BrowserHandle :=
  if (check_debug_chrome_connection probe).1 = false then Except.error 1
  else Except.ok ⟨some CHROME_DEBUG_URL, headless⟩

/-- PortfolioAgent.fetch_raw_portfolio_data (portfolio_agent.py lines
89-97): `agentResult` models `agent.run(); history.final_result()` —
`.error` when the step loop raises (caught, logged, returns `None`),
`.ok r` for a final result `r` (which `final_result()` may itself report
as `None`).  A non-`None` result is returned verbatim, with no emptiness
check. -/
def fetch_raw_portfolio_data (agentResult : Except Unit (Option (List Char))) :
    Option (List Char) :=
  match agentResult with
  | .ok r => r
  | .error _ => none

/-- Terminal state of one raw-mode run: "No portfolio data found" (a
normal, logged return), or a completed run with the persistence result. -/
inductive RunOutcome where
  | noData
  | done (stored : Bool)

/-- run_portfolio_scraper of src/main.py (lines 15-155) specialised to
data_type="raw": create the browser (a SystemExit from the probe escapes
the `except Exception` handler), fetch raw data, treat a falsy result
(None or empty string) as "No portfolio data found" and return normally,
otherwise optionally store the payload with the data_type tag.  The outer
`Except Nat` layer carries the SystemExit code. -/
def run_portfolio_scraper_raw (probe : ProbeResult) (headless : Bool)
    (agentResult : Except Unit (Option (List Char))) (store : Bool)
    (connect : Except PyExc WriteApi) (env : Env) (clock : Nat → Nat) :
    Except Nat (RunOutcome × List WPoint) :=
  match create_browser probe headless with
  | .error c => Except.error c
  | .ok _ =>
    match fetch_raw_portfolio_data agentResult with
    | none => Except.ok (RunOutcome.noData, [])
    | some s =>
      if s = [] then Except.ok (RunOutcome.noData, [])
      else if store = true then
        match run_store_step connect env clock (Payload.raw s)
            (some [("data_type", "raw")]) with
        | .ok (b, tr) => Except.ok (RunOutcome.done b, tr)
        | .error _ => Except.ok (RunOutcome.done false, [])
      else Except.ok (RunOutcome.done false, [])

/-- The probe fails: connection error, or any HTTP status other than 200. -/
def probeFails (probe : ProbeResult) : Prop :=
  probe = ProbeResult.connError ∨ ∃ c n, probe = ProbeResult.status c n ∧ c ≠ 200

/-- C9: if the liveness probe of the remote debugging endpoint returns any
status other than 200 or fails to connect, browser acquisition fails
fatally with exit code 1 and guidance to start the external browser first;
the whole run exits with that code for every possible agent behaviour and
store configuration — so no page load, model call or write is made — and
acquisition never silently launches a new browser: when it succeeds it
attaches to the debug endpoint via its CDP URL. -/
theorem debug_probe_failure_fatal (probe : ProbeResult) (headless : Bool)
    (agentResult : Except Unit (Option (List Char))) (store : Bool)
    (connect : Except PyExc WriteApi) (env : Env) (clock : Nat → Nat)
    (h : probeFails probe) :
    (check_debug_chrome_connection probe).1 = false ∧
    debugGuidanceMsg ∈ (check_debug_chrome_connection probe).2 ∧
    create_browser probe headless = Except.error 1 ∧
    run_portfolio_scraper_raw probe headless agentResult store connect env clock =
      Except.error 1 ∧
    (∀ b, create_browser probe headless = Except.ok b →
      b.cdp_url = some CHROME_DEBUG_URL) := by
  have hc : (check_debug_chrome_connection probe).1 = false ∧
      debugGuidanceMsg ∈ (check_debug_chrome_connection probe).2 := by
    rcases h with h | ⟨c, n, h, hcode⟩
    · subst h
      exact ⟨rfl, by simp [check_debug_chrome_connection]⟩
    · subst h
      simp only [check_debug_chrome_connection]
      rw [if_pos hcode]
      exact ⟨rfl, by simp⟩
  have hb : create_browser probe headless = Except.error 1 := by
    unfold create_browser
    rw [if_pos hc.1]
  refine ⟨hc.1, hc.2, hb, ?_, ?_⟩
  · unfold run_portfolio_scraper_raw
    rw [hb]
  · intro b hbk
    rw [hb] at hbk
    exact absurd hbk (by simp)

/-- Witness for `debug_probe_failure_fatal` at the concrete probe response
HTTP 500 (spec §8, end-to-end scenario 4). -/
theorem debug_probe_failure_fatal_witness :
    (check_debug_chrome_connection (ProbeResult.status 500 none)).1 = false ∧
    debugGuidanceMsg ∈ (check_debug_chrome_connection (ProbeResult.status 500 none)).2 ∧
    create_browser (ProbeResult.status 500 none) true = Except.error 1 ∧
    run_portfolio_scraper_raw (ProbeResult.status 500 none) true
      (Except.ok (some [Char.ofNat 120])) true (Except.ok allOkApi) envNoToken
      (fun i => i) = Except.error 1 ∧
    (∀ b, create_browser (ProbeResult.status 500 none) true = Except.ok b →
      b.cdp_url = some CHROME_DEBUG_URL) :=
  debug_probe_failure_fatal (ProbeResult.status 500 none) true
    (Except.ok (some [Char.ofNat 120])) true (Except.ok allOkApi) envNoToken
    (fun i => i) (Or.inr ⟨500, none, rfl, by decide⟩)

/-- C8: in raw mode the extraction returns every non-empty final result
string verbatim; an empty final result is also returned verbatim (the
empty string), which is distinct from the `None` produced by an extraction
failure — so the two are distinguishable — and the orchestrator maps the
empty result to the "no data" outcome by a normal return (an `.ok` value:
no exception, no exit), attempting no persistence. -/
theorem raw_empty_is_no_data (s : List Char) (bn : Option String) (headless store : Bool)
    (connect : Except PyExc WriteApi) (env : Env) (clock : Nat → Nat)
    (_hs : s ≠ []) :
    fetch_raw_portfolio_data (Except.ok (some s)) = some s ∧
    fetch_raw_portfolio_data (Except.ok (some ([] : List Char))) = some [] ∧
    fetch_raw_portfolio_data (Except.error ()) = none ∧
    some ([] : List Char) ≠ (none : Option (List Char)) ∧
    run_portfolio_scraper_raw (ProbeResult.status 200 bn) headless
      (Except.ok (some ([] : List Char))) store connect env clock =
      Except.ok (RunOutcome.noData, []) := by
  refine ⟨rfl, rfl, rfl, by simp, rfl⟩

/-- Witness for `raw_empty_is_no_data` at a concrete one-character result
and concrete orchestrator inputs. -/
theorem raw_empty_is_no_data_witness :
    fetch_raw_portfolio_data (Except.ok (some [Char.ofNat 120])) =
      some [Char.ofNat 120] ∧
    fetch_raw_portfolio_data (Except.ok (some ([] : List Char))) = some [] ∧
    fetch_raw_portfolio_data (Except.error ()) = none ∧
    some ([] : List Char) ≠ (none : Option (List Char)) ∧
    run_portfolio_scraper_raw (ProbeResult.status 200 none) true
      (Except.ok (some ([] : List Char))) true (Except.ok allOkApi) envNoToken
      (fun i => i) = Except.ok (RunOutcome.noData, []) :=
  raw_empty_is_no_data [Char.ofNat 120] none true true (Except.ok allOkApi)
    envNoToken (fun i => i) (by decide)

end PortfolioScraper
